import Mathlib

/-!
Verification of the guest-side init program (src/src/main.rs).

The program is a straight-line bootstrap sequence run as PID 1: it creates
directories, mounts filesystems in a fixed order, performs a hand-rolled
root switch, and builds the cgroup hierarchy.  We embed it shallowly:

* each system call made by the program becomes a `SysCall` value;
* the straight-line body of `main` becomes the list `bootSteps`, one entry
  per source statement, in source order, tagging each call as `required`
  (its result is propagated with the question-mark operator, so a failure
  aborts `main`) or `bestEffort` (the Rust code discards the result with
  `.ok()`), with `log` entries for the `info!`/`debug!` statements and
  `symlink` entries for the raw `symlinkat` calls;
* the kernel is abstracted as an oracle `Nat -> Option Errno` giving the
  outcome of the syscall performed at each list position (`none` means
  success; the value at a `log` position is never consulted);
* `runInit` interprets the list exactly as `main` sequences it, and
  `runTrace` collects the log lines emitted before `main` returns.

The error-wrapper functions `mkdir`, `mount`, `chdir`, `chroot` at the
bottom of the source file are embedded directly, including their path ->
String conversion chain for the error fields.
-/

/-- An errno value as carried by a nix error. -/
abbrev Errno := Nat

/-- A path argument as seen by the nix wrappers: the conversion used when
building an error message either succeeds with a UTF-8 string, succeeds
with non-UTF-8 bytes (Rust `into_string` fails), or fails outright in
`with_nix_path` (interior NUL byte or over-long path). -/
inductive CPath where
  | utf8 (s : String)
  | nonUtf8
  | invalid
deriving DecidableEq

/-- The string recorded in an error field for a path argument: the chain
`with_nix_path(|cs| cs.to_owned().into_string().ok().unwrap_or_else(String::new)).unwrap_or_else(|_| String::new())`
from the source.  Both failure modes fall back to the empty string, so the
conversion is total. -/
def pathFieldString : CPath → String
  | .utf8 s => s
  | .nonUtf8 => ""
  | .invalid => ""

/-- The `InitError` enum of the source, one variant per operation kind,
each carrying the path field(s) and the underlying nix error. -/
inductive InitError where
  | Mkdir (path : String) (error : Errno)
  | Mount (source target : String) (error : Errno)
  | Chdir (path : String) (error : Errno)
  | Chroot (path : String) (error : Errno)
deriving DecidableEq

/-- Wrapper `mkdir` from the source: forwards the nix result, mapping a
failure to `InitError::Mkdir` with the converted path. -/
def mkdir (path : CPath) (mode : Nat) (r : Option Errno) : Except InitError Unit :=
  match mode, r with
  | _, none => .ok ()
  | _, some error => .error (.Mkdir (pathFieldString path) error)

/-- Wrapper `mount` from the source: forwards the nix result, mapping a
failure to `InitError::Mount`; a `None` source is recorded as the empty
string (`unwrap_or_else(|| String::new())`). -/
def mount (source : Option CPath) (target : CPath) (fstype : Option String)
    (flags : Nat) (data : Option String) (r : Option Errno) : Except InitError Unit :=
  match fstype, flags, data, r with
  | _, _, _, none => .ok ()
  | _, _, _, some error =>
      .error (.Mount ((source.map pathFieldString).getD "") (pathFieldString target) error)

/-- Wrapper `chdir` from the source. -/
def chdir (path : CPath) (r : Option Errno) : Except InitError Unit :=
  match r with
  | none => .ok ()
  | some error => .error (.Chdir (pathFieldString path) error)

/-- Wrapper `chroot` from the source. -/
def chroot (path : CPath) (r : Option Errno) : Except InitError Unit :=
  match r with
  | none => .ok ()
  | some error => .error (.Chroot (pathFieldString path) error)

/-- One system call as issued by `main`; all path/option arguments in the
source are string literals, so they are kept as `String`. -/
inductive SysCall where
  | mkdir (path : String) (mode : Nat)
  | mount (source : Option String) (target : String) (fstype : Option String)
      (flags : Nat) (data : Option String)
  | chdir (path : String)
  | chroot (path : String)
deriving DecidableEq

/-- One statement of the `main` body.  `required` is a wrapper call whose
result is propagated with the question-mark operator; `bestEffort` is a
wrapper call whose result is discarded with `.ok()`; `symlink` is a raw
`symlinkat(target, None, linkpath)` call discarded with `.ok()`; `log` is
an `info!` or `debug!` statement; `rlimit` raises a resource ceiling to a
fixed value (modelled from the spec vocabulary, section 4.1 step 8 — the
source contains no such call, and the constructor exists so that its
absence from `bootSteps` can be stated). -/
inductive Step where
  | required (c : SysCall)
  | bestEffort (c : SysCall)
  | symlink (target linkpath : String)
  | log (message : String)
  | rlimit (resource : String) (limit : Nat)
deriving DecidableEq

-- Mode bits (nix::sys::stat::Mode), values in octal as on Linux.
def S_IRWXU : Nat := 0o700
def S_IRUSR : Nat := 0o400
def S_IXUSR : Nat := 0o100
def S_IRWXG : Nat := 0o070
def S_IRGRP : Nat := 0o040
def S_IXGRP : Nat := 0o010
def S_IRWXO : Nat := 0o007
def S_IROTH : Nat := 0o004
def S_IXOTH : Nat := 0o001
def S_ISVTX : Nat := 0o1000

/-- `Mode::all()`: every mode bit known to nix. -/
def modeAll : Nat := 0o7777

/-- `chmod_0755` from `main`. -/
def chmod_0755 : Nat :=
  Nat.lor (Nat.lor (Nat.lor (Nat.lor S_IRWXU S_IRGRP) S_IXGRP) S_IROTH) S_IXOTH

/-- `chmod_0555` from `main`. -/
def chmod_0555 : Nat :=
  Nat.lor (Nat.lor (Nat.lor (Nat.lor (Nat.lor S_IRUSR S_IXUSR) S_IRGRP) S_IXGRP) S_IROTH) S_IXOTH

/-- `chmod_1777` from `main`. -/
def chmod_1777 : Nat := Nat.lor (Nat.lor (Nat.lor S_IRWXU S_IRWXG) S_IRWXO) S_ISVTX

-- Mount flags (nix::mount::MsFlags), values as on Linux.
def MS_NOSUID : Nat := 2
def MS_NODEV : Nat := 4
def MS_NOEXEC : Nat := 8
def MS_NOATIME : Nat := 1024
def MS_MOVE : Nat := 8192
def MS_RELATIME : Nat := 2097152

/-- `common_mnt_flags` from `main`: `MS_NODEV | MS_NOEXEC | MS_NOSUID`. -/
def common_mnt_flags : Nat := Nat.lor (Nat.lor MS_NODEV MS_NOEXEC) MS_NOSUID

/-- `common_cgroup_mnt_flags` from `main`:
`MS_NODEV | MS_NOEXEC | MS_NOSUID | MS_RELATIME`. -/
def common_cgroup_mnt_flags : Nat :=
  Nat.lor (Nat.lor (Nat.lor MS_NODEV MS_NOEXEC) MS_NOSUID) MS_RELATIME

set_option maxHeartbeats 2000000 in
/-- The body of `main` (source lines 67-298), one entry per statement, in
source order. -/
def bootSteps : List Step := [
  .log "Starting init...",
  .log "Mounting /dev",
  .bestEffort (.mkdir "/dev" chmod_0755),
  .required (.mount (some "devtmpfs") "/dev" (some "devtmpfs") MS_NOSUID (some "mode=0755")),
  .required (.mkdir "/newroot" chmod_0755),
  .log "Mounting newroot fs",
  .required (.mount (some "/dev/vdb") "/newroot" (some "ext4") MS_RELATIME none),
  .log "Mounting (move) /dev",
  .bestEffort (.mkdir "/newroot/dev" chmod_0755),
  .required (.mount (some "/dev") "/newroot/dev" none MS_MOVE none),
  .log "Switching root",
  .required (.chdir "/newroot"),
  .required (.mount (some ".") "/" none MS_MOVE none),
  .required (.chroot "."),
  .required (.chdir "/"),
  .log "Mounting /dev/pts",
  .bestEffort (.mkdir "/dev/pts" chmod_0755),
  .required (.mount (some "devpts") "/dev/pts" (some "devpts")
    (Nat.lor (Nat.lor MS_NOEXEC MS_NOSUID) MS_NOATIME) (some "mode=0620,gid=5,ptmxmode=666")),
  .log "Mounting /dev/mqueue",
  .bestEffort (.mkdir "/dev/mqueue" chmod_0755),
  .required (.mount (some "mqueue") "/dev/mqueue" (some "mqueue") common_mnt_flags none),
  .log "Mounting /dev/shm",
  .bestEffort (.mkdir "/dev/shm" chmod_1777),
  .required (.mount (some "shm") "/dev/shm" (some "tmpfs") (Nat.lor MS_NOSUID MS_NODEV) none),
  .log "Mounting /dev/hugepages",
  .bestEffort (.mkdir "/dev/hugepages" chmod_0755),
  .required (.mount (some "hugetlbfs") "/dev/hugepages" (some "hugetlbfs") MS_RELATIME
    (some "pagesize=2M")),
  .log "Mounting /proc",
  .bestEffort (.mkdir "/proc" chmod_0555),
  .required (.mount (some "proc") "/proc" (some "proc") common_mnt_flags none),
  .required (.mount (some "binfmt_misc") "/proc/sys/fs/binfmt_misc" (some "binfmt_misc")
    (Nat.lor common_mnt_flags MS_RELATIME) none),
  .log "Mounting /sys",
  .bestEffort (.mkdir "/sys" chmod_0555),
  .required (.mount (some "sys") "/sys" (some "sysfs") common_mnt_flags none),
  .log "Mounting /run",
  .bestEffort (.mkdir "/run" chmod_0755),
  .required (.mount (some "run") "/run" (some "tmpfs") (Nat.lor MS_NOSUID MS_NODEV)
    (some "mode=0755")),
  .bestEffort (.mkdir "/run/lock" modeAll),
  .symlink "/proc/self/fd" "/dev/fd",
  .symlink "/proc/self/fd/0" "/dev/stdin",
  .symlink "/proc/self/fd/1" "/dev/stdout",
  .symlink "/proc/self/fd/2" "/dev/stderr",
  .bestEffort (.mkdir "/root" S_IRWXU),
  .log "Mounting cgroup",
  .required (.mount (some "tmpfs") "/sys/fs/cgroup" (some "tmpfs")
    (Nat.lor (Nat.lor MS_NOSUID MS_NOEXEC) MS_NODEV) (some "mode=755")),
  .log "Mounting cgroup2",
  .required (.mkdir "/sys/fs/cgroup/unified" chmod_0555),
  .required (.mount (some "cgroup2") "/sys/fs/cgroup/unified" (some "cgroup2")
    (Nat.lor common_mnt_flags MS_RELATIME) (some "nsdelegate")),
  .log "Mounting /sys/fs/cgroup/net_cls,net_prio",
  .required (.mkdir "/sys/fs/cgroup/net_cls,net_prio" chmod_0555),
  .required (.mount (some "cgroup") "/sys/fs/cgroup/net_cls,net_prio" (some "cgroup")
    common_cgroup_mnt_flags (some "net_cls,net_prio")),
  .log "Mounting /sys/fs/cgroup/hugetlb",
  .required (.mkdir "/sys/fs/cgroup/hugetlb" chmod_0555),
  .required (.mount (some "cgroup") "/sys/fs/cgroup/hugetlb" (some "cgroup")
    common_cgroup_mnt_flags (some "hugetlb")),
  .log "Mounting /sys/fs/cgroup/pids",
  .required (.mkdir "/sys/fs/cgroup/pids" chmod_0555),
  .required (.mount (some "cgroup") "/sys/fs/cgroup/pids" (some "cgroup")
    common_cgroup_mnt_flags (some "pids")),
  .log "Mounting /sys/fs/cgroup/freezer",
  .required (.mkdir "/sys/fs/cgroup/freezer" chmod_0555),
  .required (.mount (some "cgroup") "/sys/fs/cgroup/freezer" (some "cgroup")
    common_cgroup_mnt_flags (some "freezer")),
  .log "Mounting /sys/fs/cgroup/cpu,cpuacct",
  .required (.mkdir "/sys/fs/cgroup/cpu,cpuacct" chmod_0555),
  .required (.mount (some "cgroup") "/sys/fs/cgroup/cpu,cpuacct" (some "cgroup")
    common_cgroup_mnt_flags (some "cpu,cpuacct")),
  .log "Mounting /sys/fs/cgroup/devices",
  .required (.mkdir "/sys/fs/cgroup/devices" chmod_0555),
  .required (.mount (some "cgroup") "/sys/fs/cgroup/devices" (some "cgroup")
    common_cgroup_mnt_flags (some "devices")),
  .log "Mounting /sys/fs/cgroup/blkio",
  .required (.mkdir "/sys/fs/cgroup/blkio" chmod_0555),
  .required (.mount (some "cgroup") "/sys/fs/cgroup/blkio" (some "cgroup")
    common_cgroup_mnt_flags (some "blkio")),
  .log "Mounting cgroup/memory",
  .required (.mkdir "/sys/fs/cgroup/memory" chmod_0555),
  .required (.mount (some "cgroup") "/sys/fs/cgroup/memory" (some "cgroup")
    common_cgroup_mnt_flags (some "memory")),
  .log "Mounting /sys/fs/cgroup/perf_event",
  .required (.mkdir "/sys/fs/cgroup/perf_event" chmod_0555),
  .required (.mount (some "cgroup") "/sys/fs/cgroup/perf_event" (some "cgroup")
    common_cgroup_mnt_flags (some "perf_event")),
  .log "Mounting /sys/fs/cgroup/cpuset",
  .required (.mkdir "/sys/fs/cgroup/cpuset" chmod_0555),
  .required (.mount (some "cgroup") "/sys/fs/cgroup/cpuset" (some "cgroup")
    common_cgroup_mnt_flags (some "cpuset"))]

/-- Dispatch one syscall through the wrapper the source uses for it, given
the kernel outcome `r`. -/
def execCall : SysCall → Option Errno → Except InitError Unit
  | .mkdir p m, r => mkdir (.utf8 p) m r
  | .mount s t f fl d, r => mount (s.map .utf8) (.utf8 t) f fl d r
  | .chdir p, r => chdir (.utf8 p) r
  | .chroot p, r => chroot (.utf8 p) r

/-- The error `main` propagates when syscall `c` fails with errno `e`. -/
def errorOfCall : SysCall → Errno → InitError
  | .mkdir p _, e => .Mkdir p e
  | .mount s t _ _ _, e => .Mount (s.getD "") t e
  | .chdir p, e => .Chdir p e
  | .chroot p, e => .Chroot p e

/-- Interpreter for the `main` body: runs the steps in order against the
oracle `w`; a failing `required` step propagates its `InitError` (ending
the run, as the question-mark operator returns from `main`), every other
outcome is discarded and execution continues.  Returning an error from
`main` terminates the process. -/
def runInit : List Step → (Nat → Option Errno) → Except InitError Unit
  | [], _ => .ok ()
  | .required c :: rest, w =>
      match execCall c (w 0) with
      | .error e => .error e
      | .ok _ => runInit rest (fun j => w (j + 1))
  | .bestEffort _ :: rest, w => runInit rest (fun j => w (j + 1))
  | .symlink _ _ :: rest, w => runInit rest (fun j => w (j + 1))
  | .log _ :: rest, w => runInit rest (fun j => w (j + 1))
  | .rlimit _ _ :: rest, w => runInit rest (fun j => w (j + 1))

/-- The log lines emitted by a run of the `main` body: a `log` step emits
its message; a failing `required` step ends the run, so nothing after it
is emitted; every other step emits nothing. -/
def runTrace : List Step → (Nat → Option Errno) → List String
  | [], _ => []
  | .required _ :: rest, w =>
      match w 0 with
      | some _ => []
      | none => runTrace rest (fun j => w (j + 1))
  | .bestEffort _ :: rest, w => runTrace rest (fun j => w (j + 1))
  | .symlink _ _ :: rest, w => runTrace rest (fun j => w (j + 1))
  | .log m :: rest, w => m :: runTrace rest (fun j => w (j + 1))
  | .rlimit _ _ :: rest, w => runTrace rest (fun j => w (j + 1))

/-- Whether a step propagates its failure (question-mark operator). -/
def stepIsRequired : Step → Bool
  | .required _ => true
  | _ => false

/-- The step at position `j`, with a harmless default past the end. -/
def stepAt (steps : List Step) (j : Nat) : Step := (steps[j]?).getD (.log "")

/-- Every required step strictly before position `k` succeeds under `w`. -/
abbrev reqOkBelow (steps : List Step) (w : Nat → Option Errno) (k : Nat) : Prop :=
  ∀ j, j < k → stepIsRequired (stepAt steps j) = true → w j = none

/-- Whether the first character list is an initial segment of the second
(kernel-friendly replacement for the Substring-based library test). -/
def charsBegin : List Char → List Char → Bool
  | [], _ => true
  | _ :: _, [] => false
  | c :: cs, d :: ds => c == d && charsBegin cs ds

/-- Whether the string s begins with the pattern pat. -/
def strBegins (s pat : String) : Bool := charsBegin pat.data s.data

/-- The target of a mount step. -/
def mountTargetOf : Step → Option String
  | .required (.mount _ t _ _ _) => some t
  | .bestEffort (.mount _ t _ _ _) => some t
  | _ => none

/-- The source of a mount step. -/
def mountSourceOf : Step → Option String
  | .required (.mount s _ _ _ _) => s
  | .bestEffort (.mount s _ _ _ _) => s
  | _ => none

/-- The filesystem type of a mount step. -/
def mountFstypeOf : Step → Option String
  | .required (.mount _ _ f _ _) => f
  | .bestEffort (.mount _ _ f _ _) => f
  | _ => none

/-- The flag word of a mount step. -/
def mountFlagsOf : Step → Option Nat
  | .required (.mount _ _ _ fl _) => some fl
  | .bestEffort (.mount _ _ _ fl _) => some fl
  | _ => none

/-- The path arguments of a syscall, source before target for a mount. -/
def callPaths : SysCall → List String
  | .mkdir p _ => [p]
  | .mount s t _ _ _ => (match s with | some x => [x] | none => []) ++ [t]
  | .chdir p => [p]
  | .chroot p => [p]

/-- The path arguments of a step. -/
def stepPaths : Step → List String
  | .required c => callPaths c
  | .bestEffort c => callPaths c
  | .symlink t l => [t, l]
  | .log _ => []
  | .rlimit _ _ => []

/-- A step that presupposes a populated device filesystem at /dev: it
names a path strictly below /dev, or move-mounts /dev itself. -/
def assumesDev (s : Step) : Bool :=
  (stepPaths s).any (fun p => strBegins p "/dev/") || mountSourceOf s == some "/dev"

/-- The mount targets the spec lists as post-switch mounts, plus every
cgroup mount. -/
def postSwitchTargets : List String :=
  ["/dev/pts", "/dev/mqueue", "/dev/shm", "/dev/hugepages", "/proc", "/sys", "/run"]

/-- Whether a step is one of the post-switch mounts of the spec. -/
def isPostSwitchMount (s : Step) : Bool :=
  match mountTargetOf s with
  | some t => postSwitchTargets.contains t || strBegins t "/sys/fs/cgroup"
  | none => false

/-- The path a best-effort mkdir step creates. -/
def bestEffortMkdirOf : Step → Option String
  | .bestEffort (.mkdir p _) => some p
  | _ => none

/-- Position i of bootSteps is not a mount, or some earlier step is a
best-effort creation of its target directory. -/
def mountPrecededByBEMkdir (i : Nat) : Bool :=
  match (bootSteps[i]?).bind mountTargetOf with
  | some t => (bootSteps.take i).any (fun s => bestEffortMkdirOf s == some t)
  | none => true

/-- Claim C6, final clause, as stated: before every mount step of the
sequence, the target directory is created by a best-effort mkdir. -/
abbrev everyMountPrecededByBEMkdir : Prop :=
  ∀ i, i < bootSteps.length → mountPrecededByBEMkdir i = true

/-- The targets of the mount steps that are not preceded by a best-effort
creation of the target directory. -/
def mountsWithoutBEMkdir : List String :=
  bootSteps.enum.filterMap fun p =>
    match mountTargetOf p.2 with
    | some t => if mountPrecededByBEMkdir p.1 then none else some t
    | none => none

/-- The filesystem types of the pseudo-filesystem (not block-device)
mounts of the sequence. -/
def pseudoFsTypes : List String :=
  ["devtmpfs", "devpts", "mqueue", "tmpfs", "hugetlbfs", "proc", "binfmt_misc", "sysfs",
   "cgroup", "cgroup2"]

/-- Whether the flag word contains the given flag bit. -/
def hasFlag (flags flag : Nat) : Bool := Nat.land flags flag != 0

/-- A pseudo-filesystem mount whose flag word lacks MS_NOEXEC. -/
def execEnabledPseudoMount (s : Step) : Bool :=
  match mountFstypeOf s, mountFlagsOf s with
  | some f, some fl => pseudoFsTypes.contains f && !hasFlag fl MS_NOEXEC
  | _, _ => false

/-- Claim C8 as stated: every pseudo-filesystem mount of the sequence
carries the no-exec flag. -/
abbrev everyPseudoMountNoexec : Prop :=
  ∀ i : Fin bootSteps.length, execEnabledPseudoMount (bootSteps.get i) = false

/-- The targets of the pseudo-filesystem mounts that lack MS_NOEXEC. -/
def execEnabledMountTargets : List String :=
  bootSteps.filterMap fun s =>
    if execEnabledPseudoMount s then mountTargetOf s else none

/-- Whether a step raises a resource ceiling. -/
def stepIsRlimit : Step → Bool
  | .rlimit _ _ => true
  | _ => false

/-- Claim C9 core as stated: some step of the bootstrap sequence raises
the open-file-descriptor ceiling. -/
abbrev raisesFdCeiling : Prop :=
  ∃ i : Fin bootSteps.length, stepIsRlimit (bootSteps.get i) = true

/-- The ten legacy v1 controllers, in the order the sequence mounts them. -/
def v1Controllers : List String :=
  ["net_cls,net_prio", "hugetlb", "pids", "freezer", "cpu,cpuacct", "devices", "blkio",
   "memory", "perf_event", "cpuset"]

/-- The error value names the operation kind of syscall c, the path or
paths c was given (a None mount source recorded as the empty string), and
wraps the errno e. -/
def identifies (c : SysCall) (e : Errno) : InitError → Prop
  | .Mkdir p err => (∃ m, c = .mkdir p m) ∧ err = e
  | .Mount s t err => (∃ f fl d s0, c = .mount s0 t f fl d ∧ s = s0.getD "") ∧ err = e
  | .Chdir p err => c = .chdir p ∧ err = e
  | .Chroot p err => c = .chroot p ∧ err = e

/-- Modelled from the spec: the request body of the control-plane exec
endpoint (the RPC server is absent from src/src/main.rs, which contains
only the bootstrap sequencer; sections 4.3 and 6 of the spec describe it). -/
structure ExecRequest where
  cmd : List String
deriving DecidableEq

/-- Modelled from the spec: the response body of the exec endpoint. -/
structure ExecResponse where
  output : String
deriving DecidableEq

/-- Modelled from the spec: the outcome of trying to spawn the requested
command, either captured standard output or a spawn/exec failure text. -/
inductive SpawnResult where
  | spawned (stdout : String)
  | failed (message : String)
deriving DecidableEq

/-- Modelled from the spec: what one request to the exec endpoint
produces, the transport status, the response body, and how many children
were spawned while handling it. -/
structure ExecReply where
  statusCode : Nat
  response : ExecResponse
  spawnCount : Nat
deriving DecidableEq

/-- The success status of the transport. -/
def statusOk : Nat := 200

/-- Modelled from the spec: the exec endpoint handler.  An empty cmd list
yields the fixed sentinel without spawning; otherwise the first token is
spawned with the rest as arguments, and either the captured output or the
spawn-failure text becomes the response body, in both cases with success
status. -/
def handleExec (req : ExecRequest) (spawn : String → List String → SpawnResult) : ExecReply :=
  match req.cmd with
  | [] => ⟨statusOk, ⟨"No command provided"⟩, 0⟩
  | prog :: args =>
    match spawn prog args with
    | .spawned out => ⟨statusOk, ⟨out⟩, 1⟩
    | .failed msg => ⟨statusOk, ⟨msg⟩, 1⟩

theorem execCall_none (c : SysCall) : execCall c none = .ok () := by
  cases c <;> rfl

theorem execCall_some (c : SysCall) (e : Errno) :
    execCall c (some e) = .error (errorOfCall c e) := by
  cases c with
  | mount s t f fl d => cases s <;> rfl
  | mkdir p m => rfl
  | chdir p => rfl
  | chroot p => rfl

theorem runInit_cons_req_err {c : SysCall} {rest : List Step} {w : Nat → Option Errno}
    {e : Errno} (h : w 0 = some e) :
    runInit (Step.required c :: rest) w = .error (errorOfCall c e) := by
  show (match execCall c (w 0) with
    | Except.error e => Except.error e
    | Except.ok _ => runInit rest (fun j => w (j + 1))) = _
  rw [h, execCall_some]

theorem runInit_cons_req_ok {c : SysCall} {rest : List Step} {w : Nat → Option Errno}
    (h : w 0 = none) :
    runInit (Step.required c :: rest) w = runInit rest (fun j => w (j + 1)) := by
  show (match execCall c (w 0) with
    | Except.error e => Except.error e
    | Except.ok _ => runInit rest (fun j => w (j + 1))) = _
  rw [h, execCall_none]

/-- If every required step before position `k` succeeds and the step at `k`
is a required call `c` failing with errno `e`, the run propagates exactly
the wrapper error for `c` and `e`. -/
theorem runInit_fail_at :
    ∀ (steps : List Step) (w : Nat → Option Errno) (k : Nat) (c : SysCall) (e : Errno),
      steps[k]? = some (Step.required c) →
      reqOkBelow steps w k →
      w k = some e →
      runInit steps w = .error (errorOfCall c e) := by
  intro steps
  induction steps with
  | nil => intro w k c e hk _ _; simp at hk
  | cons s rest ih =>
    intro w k c e hk hpre hfail
    cases k with
    | zero =>
      have hs : s = Step.required c := by simpa using hk
      subst hs
      exact runInit_cons_req_err hfail
    | succ k' =>
      have hk' : rest[k']? = some (Step.required c) := by simpa using hk
      have hpre' : reqOkBelow rest (fun j => w (j + 1)) k' := by
        intro j hj hr
        exact hpre (j + 1) (by omega) (by simpa [stepAt] using hr)
      have hfail' : (fun j => w (j + 1)) k' = some e := by simpa using hfail
      cases s with
      | required c'' =>
        have h0 : w 0 = none := hpre 0 (Nat.succ_pos _) (by simp [stepAt, stepIsRequired])
        rw [runInit_cons_req_ok h0]
        exact ih _ k' c e hk' hpre' hfail'
      | bestEffort c'' => exact ih _ k' c e hk' hpre' hfail'
      | symlink t l => exact ih _ k' c e hk' hpre' hfail'
      | log m => exact ih _ k' c e hk' hpre' hfail'
      | rlimit r l => exact ih _ k' c e hk' hpre' hfail'

/-- The run result reads the oracle only at required positions. -/
theorem runInit_congr :
    ∀ (steps : List Step) (w w' : Nat → Option Errno),
      (∀ j, j < steps.length → stepIsRequired (stepAt steps j) = true → w j = w' j) →
      runInit steps w = runInit steps w' := by
  intro steps
  induction steps with
  | nil => intro w w' _; rfl
  | cons s rest ih =>
    intro w w' h
    have h' : ∀ j, j < rest.length →
        stepIsRequired (stepAt rest j) = true → w (j + 1) = w' (j + 1) := by
      intro j hj hr
      exact h (j + 1) (by simp; omega) (by simpa [stepAt] using hr)
    cases s with
    | required c =>
      have h0 : w 0 = w' 0 := by
        by_cases hr : stepIsRequired (stepAt (Step.required c :: rest) 0) = true
        · exact h 0 (by simp) hr
        · simp [stepAt, stepIsRequired] at hr
      show (match execCall c (w 0) with
        | Except.error e => Except.error e
        | Except.ok _ => runInit rest (fun j => w (j + 1))) = (match execCall c (w' 0) with
        | Except.error e => Except.error e
        | Except.ok _ => runInit rest (fun j => w' (j + 1)))
      rw [h0, ih _ _ h']
    | bestEffort c => exact ih _ _ h'
    | symlink t l => exact ih _ _ h'
    | log m => exact ih _ _ h'
    | rlimit r l => exact ih _ _ h'

/-- The emitted log lines read the oracle only at required positions. -/
theorem runTrace_congr :
    ∀ (steps : List Step) (w w' : Nat → Option Errno),
      (∀ j, j < steps.length → stepIsRequired (stepAt steps j) = true → w j = w' j) →
      runTrace steps w = runTrace steps w' := by
  intro steps
  induction steps with
  | nil => intro w w' _; rfl
  | cons s rest ih =>
    intro w w' h
    have h' : ∀ j, j < rest.length →
        stepIsRequired (stepAt rest j) = true → w (j + 1) = w' (j + 1) := by
      intro j hj hr
      exact h (j + 1) (by simp; omega) (by simpa [stepAt] using hr)
    cases s with
    | required c =>
      have h0 : w 0 = w' 0 := h 0 (by simp) (by simp [stepAt, stepIsRequired])
      show (match w 0 with
        | some _ => []
        | none => runTrace rest (fun j => w (j + 1))) = (match w' 0 with
        | some _ => []
        | none => runTrace rest (fun j => w' (j + 1)))
      rw [h0, ih _ _ h']
    | bestEffort c => exact ih _ _ h'
    | symlink t l => show _ = runTrace _ _; exact ih _ _ h'
    | log m => show m :: runTrace rest _ = m :: runTrace rest _; rw [ih _ _ h']
    | rlimit r l => exact ih _ _ h'

/-- Claim C1: the bootstrap sequence is totally ordered as mandated: the
devtmpfs mount on /dev (position 3) precedes every step that assumes /dev
exists, in particular the mount of the root block device /dev/vdb onto
/newroot (position 6), and the four root-switch steps (positions 11-14)
precede every post-switch mount (/dev/pts, /dev/mqueue, /dev/shm,
/dev/hugepages, /proc, /sys, /run and the cgroup mounts). -/
theorem bootOrderTotal :
    bootSteps[3]? = some (.required (.mount (some "devtmpfs") "/dev" (some "devtmpfs")
      MS_NOSUID (some "mode=0755"))) ∧
    bootSteps[6]? = some (.required (.mount (some "/dev/vdb") "/newroot" (some "ext4")
      MS_RELATIME none)) ∧
    (∀ i : Fin bootSteps.length, assumesDev (bootSteps.get i) = true → 3 < i.val) ∧
    (bootSteps.drop 11).take 4 = [.required (.chdir "/newroot"),
      .required (.mount (some ".") "/" none MS_MOVE none), .required (.chroot "."),
      .required (.chdir "/")] ∧
    (∀ i : Fin bootSteps.length, isPostSwitchMount (bootSteps.get i) = true → 14 < i.val) :=
  ⟨by decide, by decide, by decide, by decide, by decide⟩

/-- Witness for C1: the root-device mount (position 6) does assume /dev
and lies after position 3; the /dev/pts mount (position 17) is a
post-switch mount and lies after position 14. -/
theorem bootOrderTotal_witness : (3 : Nat) < 6 ∧ (14 : Nat) < 17 :=
  ⟨bootOrderTotal.2.2.1 ⟨6, by decide⟩ (by decide),
   bootOrderTotal.2.2.2.2 ⟨17, by decide⟩ (by decide)⟩

/-- Claim C4: the hand-rolled root switch is exactly: chdir into /newroot,
move-mount "." onto "/", chroot into ".", chdir to "/", consecutively at
positions 11-14 and all required; and, when every earlier required step
succeeded, a failure of any of the four aborts the run with the
corresponding wrapper error (so the process terminates). -/
theorem rootSwitchExact :
    (bootSteps.drop 11).take 4 = [.required (.chdir "/newroot"),
      .required (.mount (some ".") "/" none MS_MOVE none), .required (.chroot "."),
      .required (.chdir "/")] ∧
    (∀ w e, reqOkBelow bootSteps w 11 → w 11 = some e →
      runInit bootSteps w = .error (.Chdir "/newroot" e)) ∧
    (∀ w e, reqOkBelow bootSteps w 12 → w 12 = some e →
      runInit bootSteps w = .error (.Mount "." "/" e)) ∧
    (∀ w e, reqOkBelow bootSteps w 13 → w 13 = some e →
      runInit bootSteps w = .error (.Chroot "." e)) ∧
    (∀ w e, reqOkBelow bootSteps w 14 → w 14 = some e →
      runInit bootSteps w = .error (.Chdir "/" e)) := by
  refine ⟨by decide, ?_, ?_, ?_, ?_⟩
  · intro w e h hf; exact runInit_fail_at bootSteps w 11 (.chdir "/newroot") e (by decide) h hf
  · intro w e h hf; exact runInit_fail_at bootSteps w 12 (.mount (some ".") "/" none MS_MOVE none) e (by decide) h hf
  · intro w e h hf; exact runInit_fail_at bootSteps w 13 (.chroot ".") e (by decide) h hf
  · intro w e h hf; exact runInit_fail_at bootSteps w 14 (.chdir "/") e (by decide) h hf

/-- Witness for C4: failing the chroot call (position 13) with errno 1
aborts the run with the Chroot error. -/
theorem rootSwitchExact_witness :
    runInit bootSteps (fun i => if i = 13 then some 1 else none)
      = .error (.Chroot "." 1) :=
  rootSwitchExact.2.2.2.1 _ 1 (by decide) (by decide)

/-- Claim C5: the cgroup construction mounts a tmpfs at the cgroup root
(position 44), then the unified v2 hierarchy under it with the nsdelegate
option (positions 46-47), then for each of the ten legacy v1 controllers,
in order net_cls,net_prio, hugetlb, pids, freezer, cpu,cpuacct, devices,
blkio, memory, perf_event, cpuset, creates a dedicated directory and
mounts a legacy cgroup filesystem scoped to that controller, every v1
mount using the flag set MS_NODEV, MS_NOEXEC, MS_NOSUID, MS_RELATIME. -/
theorem cgroupHierarchyLayout :
    bootSteps[44]? = some (.required (.mount (some "tmpfs") "/sys/fs/cgroup" (some "tmpfs")
      (Nat.lor (Nat.lor MS_NOSUID MS_NOEXEC) MS_NODEV) (some "mode=755"))) ∧
    bootSteps[46]? = some (.required (.mkdir "/sys/fs/cgroup/unified" chmod_0555)) ∧
    bootSteps[47]? = some (.required (.mount (some "cgroup2") "/sys/fs/cgroup/unified"
      (some "cgroup2") (Nat.lor common_mnt_flags MS_RELATIME) (some "nsdelegate"))) ∧
    (∀ n : Fin 10,
      bootSteps[49 + 3 * n.val]? = some (.required (.mkdir
        ("/sys/fs/cgroup/" ++ v1Controllers.getD n.val "") chmod_0555)) ∧
      bootSteps[50 + 3 * n.val]? = some (.required (.mount (some "cgroup")
        ("/sys/fs/cgroup/" ++ v1Controllers.getD n.val "") (some "cgroup")
        common_cgroup_mnt_flags (some (v1Controllers.getD n.val ""))))) :=
  ⟨by decide, by decide, by decide, by decide⟩

/-- Claim C7: /dev enters the new root through a single move-mount of /dev
onto /newroot/dev (position 9, flags MS_MOVE, no filesystem type), the
sequence contains exactly one devtmpfs mount (so the device filesystem is
never mounted a second time), and the move sits after the root-device
mount (position 6) and before the root switch (position 11). -/
theorem devMovedNotRemounted :
    bootSteps[9]? = some (.required (.mount (some "/dev") "/newroot/dev" none MS_MOVE none)) ∧
    bootSteps.filter (fun s => mountFstypeOf s == some "devtmpfs")
      = [.required (.mount (some "devtmpfs") "/dev" (some "devtmpfs") MS_NOSUID
          (some "mode=0755"))] ∧
    bootSteps.filter (fun s => mountTargetOf s == some "/newroot/dev")
      = [.required (.mount (some "/dev") "/newroot/dev" none MS_MOVE none)] ∧
    bootSteps[6]? = some (.required (.mount (some "/dev/vdb") "/newroot" (some "ext4")
      MS_RELATIME none)) ∧
    bootSteps[11]? = some (.required (.chdir "/newroot")) :=
  ⟨by decide, by decide, by decide, by decide, by decide⟩

/-- Claim C2: for every required bootstrap step, if its system call fails
with errno e (every earlier required call succeeding, so execution reaches
it), the run of main returns an error identifying the exact operation kind
(create-directory, mount, change-directory, change-root), the path or
paths involved, and the underlying errno; the error return from main
terminates the process. -/
theorem requiredFailureIdentified (k : Nat) (c : SysCall) (e : Errno)
    (w : Nat → Option Errno)
    (hk : bootSteps[k]? = some (.required c))
    (hpre : reqOkBelow bootSteps w k)
    (hfail : w k = some e) :
    ∃ err, runInit bootSteps w = .error err ∧ identifies c e err := by
  refine ⟨errorOfCall c e, runInit_fail_at bootSteps w k c e hk hpre hfail, ?_⟩
  cases c with
  | mkdir p m => exact ⟨⟨m, rfl⟩, rfl⟩
  | mount s t f fl d => exact ⟨⟨f, fl, d, s, rfl, rfl⟩, rfl⟩
  | chdir p => exact ⟨rfl, rfl⟩
  | chroot p => exact ⟨rfl, rfl⟩

/-- Witness for C2: failing the devtmpfs mount (position 3) with errno 2
produces an error identifying that mount and errno. -/
theorem requiredFailureIdentified_witness :
    ∃ err, runInit bootSteps (fun i => if i = 3 then some 2 else none) = .error err ∧
      identifies (.mount (some "devtmpfs") "/dev" (some "devtmpfs") MS_NOSUID
        (some "mode=0755")) 2 err :=
  requiredFailureIdentified 3 _ 2 _ (by decide) (by decide) (by decide)

/-- Counterexample to claim C6: it is false that directory creation before
a mount is best-effort for every mount step — the directory for the
unified cgroup mount is created by a required mkdir (position 46), and
several mounts have no directory-creation step at all. -/
theorem notEveryMountPrecededByBEMkdir :
    ¬ everyMountPrecededByBEMkdir ∧
    bootSteps[46]? = some (.required (.mkdir "/sys/fs/cgroup/unified" chmod_0555)) :=
  ⟨by decide, by decide⟩

/-- Claim C6 amended: a best-effort step's failure is silently discarded —
the run result and the emitted log lines are exactly those of a run where
it succeeds, so execution continues — and the mounts not preceded by a
best-effort creation of their target are exactly /newroot (required
mkdir), / (the root-switch move), binfmt_misc and the cgroup-root tmpfs
(no mkdir at all), and the unified plus ten controller cgroup mounts
(required mkdirs, fatal on failure). -/
theorem bestEffortFailureDiscarded :
    mountsWithoutBEMkdir = ["/newroot", "/", "/proc/sys/fs/binfmt_misc", "/sys/fs/cgroup",
      "/sys/fs/cgroup/unified", "/sys/fs/cgroup/net_cls,net_prio", "/sys/fs/cgroup/hugetlb",
      "/sys/fs/cgroup/pids", "/sys/fs/cgroup/freezer", "/sys/fs/cgroup/cpu,cpuacct",
      "/sys/fs/cgroup/devices", "/sys/fs/cgroup/blkio", "/sys/fs/cgroup/memory",
      "/sys/fs/cgroup/perf_event", "/sys/fs/cgroup/cpuset"] ∧
    (∀ w w', (∀ j, j < bootSteps.length → stepIsRequired (stepAt bootSteps j) = true →
        w j = w' j) →
      runInit bootSteps w = runInit bootSteps w' ∧
      runTrace bootSteps w = runTrace bootSteps w') :=
  ⟨by decide,
   fun w w' h => ⟨runInit_congr bootSteps w w' h, runTrace_congr bootSteps w w' h⟩⟩

/-- Witness for C6 amended: failing the best-effort mkdir of /dev
(position 2, errno 17, directory exists) changes neither the run result
nor the log output. -/
theorem bestEffortFailureDiscarded_witness :
    runInit bootSteps (fun i => if i = 2 then some 17 else none)
      = runInit bootSteps (fun _ => none) ∧
    runTrace bootSteps (fun i => if i = 2 then some 17 else none)
      = runTrace bootSteps (fun _ => none) :=
  bestEffortFailureDiscarded.2 _ _ (by decide)

/-- Counterexample to claim C8: not every pseudo-filesystem mount carries
the no-exec flag — the tmpfs mount on /dev/shm (position 23) has flag word
MS_NOSUID with MS_NODEV, which does not contain MS_NOEXEC, so /dev/shm is
mounted exec-enabled. -/
theorem notEveryPseudoMountNoexec :
    ¬ everyPseudoMountNoexec ∧
    bootSteps[23]? = some (.required (.mount (some "shm") "/dev/shm" (some "tmpfs")
      (Nat.lor MS_NOSUID MS_NODEV) none)) ∧
    hasFlag (Nat.lor MS_NOSUID MS_NODEV) MS_NOEXEC = false :=
  ⟨by decide, by decide, by decide⟩

/-- Claim C8 amended: the pseudo-filesystem mounts lacking the no-exec
flag are exactly /dev (devtmpfs), /dev/shm (tmpfs), /dev/hugepages
(hugetlbfs) and /run (tmpfs); every other pseudo-filesystem mount of the
sequence carries MS_NOEXEC. -/
theorem execEnabledMountsExactly :
    execEnabledMountTargets = ["/dev", "/dev/shm", "/dev/hugepages", "/run"] := by
  decide

/-- Counterexample to claim C9: no step of the bootstrap sequence raises
the open-file-descriptor ceiling — the sequence contains no resource-limit
step at all. -/
theorem noFdCeilingRaise : ¬ raisesFdCeiling := by decide

/-- Claim C9 amended: the sequence contains no resource-ceiling step;
after the four convenience symlinks (positions 38-41) it creates /root
best-effort (position 42) and proceeds directly to the cgroup mounts. -/
theorem noRlimitAfterSymlinks :
    bootSteps.filter stepIsRlimit = [] ∧
    (bootSteps.drop 38).take 7 = [.symlink "/proc/self/fd" "/dev/fd",
      .symlink "/proc/self/fd/0" "/dev/stdin", .symlink "/proc/self/fd/1" "/dev/stdout",
      .symlink "/proc/self/fd/2" "/dev/stderr", .bestEffort (.mkdir "/root" S_IRWXU),
      .log "Mounting cgroup",
      .required (.mount (some "tmpfs") "/sys/fs/cgroup" (some "tmpfs")
        (Nat.lor (Nat.lor MS_NOSUID MS_NOEXEC) MS_NODEV) (some "mode=755"))] :=
  ⟨by decide, by decide⟩

/-- Claim C10: each wrapper returns Ok exactly when the underlying call
succeeds; on failure it returns the InitError variant matching the
operation, wrapping the errno and the converted path field(s); the
conversion is total, recording the empty string for a path that is not
UTF-8 or that with_nix_path rejects, and for an absent mount source. -/
theorem wrapperFidelity :
    (∀ p m r, mkdir p m r = .ok () ↔ r = none) ∧
    (∀ p m e, mkdir p m (some e) = .error (.Mkdir (pathFieldString p) e)) ∧
    (∀ s t f fl d r, mount s t f fl d r = .ok () ↔ r = none) ∧
    (∀ s t f fl d e, mount s t f fl d (some e)
      = .error (.Mount ((s.map pathFieldString).getD "") (pathFieldString t) e)) ∧
    (∀ p r, chdir p r = .ok () ↔ r = none) ∧
    (∀ p e, chdir p (some e) = .error (.Chdir (pathFieldString p) e)) ∧
    (∀ p r, chroot p r = .ok () ↔ r = none) ∧
    (∀ p e, chroot p (some e) = .error (.Chroot (pathFieldString p) e)) ∧
    pathFieldString CPath.nonUtf8 = "" ∧ pathFieldString CPath.invalid = "" := by
  refine ⟨?_, fun p m e => rfl, ?_, fun s t f fl d e => rfl, ?_, fun p e => rfl, ?_,
    fun p e => rfl, rfl, rfl⟩
  · intro p m r; cases r <;> simp [mkdir]
  · intro s t f fl d r; cases r <;> simp [mount]
  · intro p r; cases r <;> simp [chdir]
  · intro p r; cases r <;> simp [chroot]

/-- Claim C3 (exec endpoint, modelled from the spec): an empty cmd list
yields success status and body "No command provided" with no child
spawned, whatever the spawner would do; a spawn or exec failure is
captured as the response text, again with success status, not surfaced as
a transport error. -/
theorem execEndpointContract (spawn : String → List String → SpawnResult) :
    handleExec ⟨[]⟩ spawn = ⟨statusOk, ⟨"No command provided"⟩, 0⟩ ∧
    (∀ prog args msg, spawn prog args = .failed msg →
      handleExec ⟨prog :: args⟩ spawn = ⟨statusOk, ⟨msg⟩, 1⟩) := by
  refine ⟨rfl, fun prog args msg h => ?_⟩
  simp [handleExec, h]

/-- Witness for C3: a spawner that always fails with a fixed message; the
empty command yields the sentinel, a bad path yields the failure text with
success status. -/
theorem execEndpointContract_witness :
    handleExec ⟨[]⟩ (fun _ _ => SpawnResult.failed "No such file or directory (os error 2)")
      = ⟨statusOk, ⟨"No command provided"⟩, 0⟩ ∧
    handleExec ⟨["/no/such/binary"]⟩
      (fun _ _ => SpawnResult.failed "No such file or directory (os error 2)")
      = ⟨statusOk, ⟨"No such file or directory (os error 2)"⟩, 1⟩ :=
  ⟨(execEndpointContract _).1,
   (execEndpointContract _).2 "/no/such/binary" [] _ rfl⟩

/-- Witness for C5: the first controller triple, net_cls,net_prio, at
positions 49 and 50. -/
theorem cgroupHierarchyLayout_witness :
    bootSteps[49]? = some (.required (.mkdir
      ("/sys/fs/cgroup/" ++ v1Controllers.getD 0 "") chmod_0555)) ∧
    bootSteps[50]? = some (.required (.mount (some "cgroup")
      ("/sys/fs/cgroup/" ++ v1Controllers.getD 0 "") (some "cgroup")
      common_cgroup_mnt_flags (some (v1Controllers.getD 0 "")))) :=
  cgroupHierarchyLayout.2.2.2 ⟨0, by decide⟩

/-- Witness for C10: a successful mkdir returns Ok, and a failing mkdir on
a non-UTF-8 path records the empty string as the path field. -/
theorem wrapperFidelity_witness :
    mkdir (.utf8 "/dev") chmod_0755 none = .ok () ∧
    mkdir CPath.nonUtf8 chmod_0755 (some 13) = .error (.Mkdir "" 13) :=
  ⟨(wrapperFidelity.1 (.utf8 "/dev") chmod_0755 none).mpr rfl,
   wrapperFidelity.2.1 CPath.nonUtf8 chmod_0755 13⟩
